import Mathlib

/-!
Verification development for the GamePlan workout-plan generator
(`src/app.py`).  The exercise catalog, the sport-keyword detector, the
exercise sampler, the prompt assembly and the submission handler are
embedded shallowly; the process-wide random source behind
`random.sample` is represented by an explicit index oracle
(`seed : Nat → Nat`), and the external OpenAI chat-completion call by an
opaque function from the message list to `Except String String`.
-/

namespace GamePlan

/-- The static exercise dataset `EXERCISE_LIBRARY` of src/app.py (lines
17-83): an insertion-ordered mapping from a lowercase focus-area or
sport label to the ordered list of exercise names. -/
def EXERCISE_LIBRARY : List (String × List String) :=
  [ ("legs",
      [ "Bodyweight Squats"
      , "Walking Lunges"
      , "Glute Bridges"
      , "Romanian Deadlifts (dumbbells or barbell)"
      , "Calf Raises" ])
  , ("upper body",
      [ "Push-Ups"
      , "Dumbbell Rows"
      , "Shoulder Press"
      , "Bench Press"
      , "Lat Pulldown or Assisted Pull-Up" ])
  , ("core",
      [ "Plank"
      , "Dead Bug"
      , "Side Plank"
      , "Russian Twists"
      , "Bird Dogs" ])
  , ("full body",
      [ "Burpees"
      , "Kettlebell Swings"
      , "Thrusters"
      , "Mountain Climbers"
      , "Farmer’s Carry" ])
  , ("basketball",
      [ "Lateral Bounds"
      , "Bulgarian Split Squats"
      , "Box Jumps"
      , "Single-Leg Romanian Deadlifts"
      , "Defensive Slides" ])
  , ("soccer",
      [ "Single-Leg Squats to Bench"
      , "Reverse Lunges"
      , "Nordic Hamstring Curls"
      , "Copenhagen Planks"
      , "Agility Ladder Drills" ])
  , ("running",
      [ "Calf Raises"
      , "Single-Leg Glute Bridges"
      , "Hip Thrusts"
      , "Step-Ups"
      , "Tempo Intervals on Treadmill" ])
  , ("tennis",
      [ "Lateral Lunges"
      , "Medicine Ball Rotational Throws"
      , "Single-Arm Dumbbell Rows"
      , "Farmer’s Carry"
      , "Split Squat Jumps" ])
  , ("volleyball",
      [ "Squat Jumps"
      , "Overhead Press"
      , "Plank to Push-Up"
      , "Broad Jumps"
      , "Band External Rotations" ]) ]

/-- The sport keyword table `SPORT_KEYWORDS` of src/app.py (lines 85-91),
in its fixed declaration order. -/
def SPORT_KEYWORDS : List (String × List String) :=
  [ ("basketball", ["basketball", "bball", "hoops"])
  , ("soccer", ["soccer", "football", "futbol"])
  , ("running", ["running", "runner", "marathon", "5k", "10k"])
  , ("tennis", ["tennis"])
  , ("volleyball", ["volleyball", "beach volleyball"]) ]

/-- Lookup in an insertion-ordered association list; the embedding of a
Python dict membership test / subscript for the two static tables. -/
def alist_lookup {β : Type} (k : String) : List (String × β) → Option β
  | [] => none
  | (k₀, v) :: rest => if k₀ = k then some v else alist_lookup k rest

/-- Model of the Python `str.lower()` used by the program: per-character
lowercasing (the program's strings and keywords are ASCII, where this
coincides with Python's behavior). -/
def pyLower (s : String) : String := String.mk (s.data.map Char.toLower)

/-- Occurrence of `needle` as a contiguous run inside a character list. -/
def hasSubstr (needle : List Char) : List Char → Bool
  | [] => needle.isEmpty
  | c :: rest => needle.isPrefixOf (c :: rest) || hasSubstr needle rest

/-- Model of the Python substring test `kw in text` on strings. -/
def pyIn (kw text : String) : Bool := hasSubstr kw.data text.data

/-- The keyword scan of `detect_sport_from_text`: the outer `for` loop of
src/app.py lines 97-100, returning the first sport whose keyword set has
a member occurring in the (already lowercased) text. -/
def detectGo (t : String) : List (String × List String) → Option String
  | [] => none
  | (sport, kws) :: rest =>
    if kws.any (fun kw => pyIn kw t) then some sport else detectGo t rest

/-- `detect_sport_from_text` (src/app.py lines 94-101). -/
def detect_sport_from_text (text : String) : Option String :=
  detectGo (pyLower text) SPORT_KEYWORDS

/-- A without-replacement draw of `k` elements from `pop`, the draws
directed by the index oracle `seed`: each step removes the element at
index `seed k % pop.length` of the remaining population.  This is the
observable behavior of one run of `random.sample` with the randomness
made explicit. -/
def randomSample {α : Type} : List α → Nat → (Nat → Nat) → List α
  | _, 0, _ => []
  | [], _ + 1, _ => []
  | a :: rest, k + 1, seed =>
    let i := seed k % (a :: rest).length
    (a :: rest).get ⟨i, Nat.mod_lt _ (Nat.succ_pos _)⟩ ::
      randomSample ((a :: rest).eraseIdx i) k seed

/-- Model of the Python stdlib call `random.sample(population, k)` (an
external collaborator of src/app.py): raises `ValueError` when `k` is
negative or exceeds the population size, and otherwise returns `k`
distinct-position elements drawn without replacement, the randomness
supplied by the index oracle `seed`. -/
def pySample {α : Type} (population : List α) (k : Int) (seed : Nat → Nat) :
    Except String (List α) :=
  if k < 0 ∨ (population.length : Int) < k then
    .error "Sample larger than population or is negative"
  else
    .ok (randomSample population k.toNat seed)

/-- The label resolution inside `sample_exercises` (src/app.py lines
106-108): lowercase the label and fall back to `"full body"` when it is
not a key of the catalog. -/
def resolve_label (focus_area : String) : String :=
  let fa := pyLower focus_area
  if (alist_lookup fa EXERCISE_LIBRARY).isSome then fa else "full body"

/-- The catalog entry for a resolved key (`EXERCISE_LIBRARY[focus_area]`,
src/app.py line 109). -/
def catalogEntry (k : String) : List String :=
  (alist_lookup k EXERCISE_LIBRARY).getD []

/-- `sample_exercises` (src/app.py lines 104-111): clamp `n` to the
entry size and sample without replacement. -/
def sample_exercises (focus_area : String) (n : Int) (seed : Nat → Nat) :
    Except String (List String) :=
  let exercises := catalogEntry (resolve_label focus_area)
  let n' := min n (exercises.length : Int)
  pySample exercises n' seed

/-- `SYSTEM_PROMPT` (src/app.py lines 115-129), the fixed coaching
persona instruction. -/
def SYSTEM_PROMPT : String :=
  "\nYou are GamePlan, an AI training companion and coach.\n\nYour job:\n- Ask brief clarifying questions only when necessary.\n- Create structured, safe workout plans based on the user\x27s time, level, mood, and goals.\n- Use encouraging, human-like, but not cringey language.\n- Assume the user has basic health clearance; if not sure, remind them to consult a professional.\n- Always organize output using clear headings and bullet points.\n\nIMPORTANT:\n- Keep it within the user\x27s requested time.\n- Include sets, reps, and rest suggestions.\n- Add 1-2 short motivational lines that feel like a friendly coach.\n"

/-- The `exercise_hint` string of src/app.py lines 144-147: the
comma-joined sampled exercises wrapped in fixed text. -/
def exercise_hint (suggested : List String) : String :=
  "For this user, you might want to include some of these exercises when relevant: "
    ++ String.intercalate ", " suggested ++ "."

/-- The `full_user_message` f-string of src/app.py lines 149-171: the
deterministic template substitution of the profile fields, the verbatim
free-text request and the exercise hint. -/
def full_user_message (user_message level goal : String) (minutes : Int)
    (mood focus : String) (suggested : List String) : String :=
  "\nUser profile:\n- Experience level: " ++ level
    ++ "\n- Goal: " ++ goal
    ++ "\n- Session length: " ++ toString minutes
    ++ " minutes\n- Mood: " ++ mood
    ++ "\n- Focus area: " ++ focus
    ++ "\n\nUser request:\n\"\"\"" ++ user_message
    ++ "\"\"\"\n\nAdditional hint from a small exercise dataset:\n"
    ++ exercise_hint suggested
    ++ "\n\nPlease respond with:\n\n1. Short summary (1–2 sentences) of today\x27s plan.\n2. Warm-up (5 minutes max).\n3. Main workout (clearly numbered exercises with sets/reps/rest).\n4. Optional finisher (if time allows).\n5. Cool-down or stretching ideas.\n6. 1–2 motivational lines that feel like a supportive coach.\n"

/-- The message list handed to the completion call (src/app.py lines
175-178): the fixed system prompt followed by the assembled user
message, each tagged with its role. -/
def chat_messages (user_message level goal : String) (minutes : Int)
    (mood focus : String) (suggested : List String) : List (String × String) :=
  [ ("system", SYSTEM_PROMPT)
  , ("user", full_user_message user_message level goal minutes mood focus suggested) ]

/-- `generate_workout_plan` (src/app.py lines 132-183): sample a hint
from the catalog keyed by the selected focus area, assemble the two
messages and hand them to the opaque completion client `c` (which stands
for `openai.ChatCompletion.create` at fixed model, temperature 0.8 and
max_tokens 900, followed by extraction of the first choice's content). -/
def generate_workout_plan (seed : Nat → Nat)
    (c : List (String × String) → Except String String)
    (user_message level goal : String) (minutes : Int) (mood focus : String) :
    Except String String :=
  match sample_exercises focus 3 seed with
  | .error e => .error e
  | .ok suggested =>
      c (chat_messages user_message level goal minutes mood focus suggested)

/-- What the submission handler renders: a warning banner, the generated
plan, or an error banner. -/
inductive UIOutcome : Type
  | warning (msg : String)
  | plan (text : String)
  | errorBanner (msg : String)
deriving DecidableEq

/-- Python whitespace as stripped by `str.strip()`. -/
def pyIsSpace (c : Char) : Bool :=
  c == ' ' || c == '\t' || c == '\n' || c == '\x0d' || c == '\x0b' || c == '\x0c'

/-- Model of `str.strip()`: drop whitespace from both ends. -/
def py_strip (s : String) : String :=
  String.mk (((s.data.dropWhile pyIsSpace).reverse.dropWhile pyIsSpace).reverse)

/-- The `if generate:` submission handler of src/app.py lines 243-261:
an empty (after stripping) free-text request produces a warning and
nothing else runs; otherwise the pipeline runs under a catch-all that
turns any failure into a single error banner embedding the failure
text. -/
def handle_generate (seed : Nat → Nat)
    (c : List (String × String) → Except String String)
    (user_message level goal : String) (minutes : Int) (mood focus : String) :
    UIOutcome :=
  if py_strip user_message = "" then
    .warning "Please type something about the workout you want."
  else
    match generate_workout_plan seed c user_message level goal minutes mood focus with
    | .ok plan => .plan plan
    | .error e =>
        .errorBanner ("Something went wrong while generating your plan: " ++ e)

/-- A concrete index oracle: always pick the first remaining element. -/
def seed0 : Nat → Nat := fun _ => 0

/-- `sub` occurs contiguously (as a substring) inside `s`. -/
def strIncludes (s sub : String) : Prop := sub.data <:+: s.data

/-- Removing the element at a valid index and re-consing it permutes the
list. -/
theorem perm_cons_eraseIdx {α : Type} :
    ∀ (l : List α) (i : Nat) (h : i < l.length),
      l.Perm (l.get ⟨i, h⟩ :: l.eraseIdx i)
  | _ :: _, 0, _ => by simp [List.eraseIdx]
  | a :: t, i + 1, h => by
    have ih := perm_cons_eraseIdx t i (Nat.lt_of_succ_lt_succ h)
    simpa [List.eraseIdx] using (ih.cons a).trans (List.Perm.swap _ a _)

/-- A without-replacement draw is a sub-permutation of the population. -/
theorem randomSample_subperm {α : Type} :
    ∀ (pop : List α) (k : Nat) (seed : Nat → Nat),
      (randomSample pop k seed).Subperm pop
  | _, 0, _ => by simp [randomSample]
  | [], _ + 1, _ => by simp [randomSample]
  | a :: rest, k + 1, seed => by
    rw [randomSample]
    exact ((List.subperm_cons _).2 (randomSample_subperm _ k seed)).trans
      (perm_cons_eraseIdx (a :: rest) _ _).symm.subperm

/-- A draw of `k ≤ |pop|` elements has length exactly `k`. -/
theorem randomSample_length {α : Type} :
    ∀ (pop : List α) (k : Nat) (seed : Nat → Nat), k ≤ pop.length →
      (randomSample pop k seed).length = k
  | _, 0, _, _ => by simp [randomSample]
  | [], _ + 1, _, h => by simp at h
  | a :: rest, k + 1, seed, h => by
    rw [randomSample]
    simp only [List.length_cons]
    have hi : seed k % (rest.length + 1) < rest.length + 1 :=
      Nat.mod_lt _ (Nat.succ_pos _)
    have hk : k ≤ ((a :: rest).eraseIdx (seed k % (rest.length + 1))).length := by
      rw [List.length_eraseIdx_of_lt (by simpa using hi)]
      simp only [List.length_cons] at h ⊢
      omega
    rw [randomSample_length _ k seed hk]

/-- A draw from a duplicate-free population is duplicate-free. -/
theorem randomSample_nodup {α : Type} (pop : List α) (k : Nat) (seed : Nat → Nat)
    (h : pop.Nodup) : (randomSample pop k seed).Nodup := by
  obtain ⟨l, hp, hs⟩ := randomSample_subperm pop k seed
  exact hp.nodup_iff.mp (h.sublist hs)

/-- Every drawn element belongs to the population. -/
theorem randomSample_subset {α : Type} (pop : List α) (k : Nat) (seed : Nat → Nat) :
    ∀ e ∈ randomSample pop k seed, e ∈ pop :=
  fun _ he => (randomSample_subperm pop k seed).subset he

/-- A successful association-list lookup exhibits a member of the list. -/
theorem alist_lookup_mem {β : Type} :
    ∀ (ps : List (String × β)) (k : String) (v : β),
      alist_lookup k ps = some v → (k, v) ∈ ps
  | [], _, _, h => by simp [alist_lookup] at h
  | (k₀, v₀) :: rest, k, v, h => by
    by_cases hk : k₀ = k
    · subst hk
      simp [alist_lookup] at h
      simp [h]
    · rw [alist_lookup, if_neg hk] at h
      exact List.mem_cons_of_mem _ (alist_lookup_mem rest k v h)

/-- Every catalog entry is duplicate-free and has five exercises. -/
theorem library_entry_facts : ∀ p ∈ EXERCISE_LIBRARY, p.2.Nodup ∧ p.2.length = 5 := by
  decide

/-- Whatever the requested label, the resolved label has a catalog entry,
and that entry is duplicate-free with five exercises. -/
theorem resolve_lookup_some (label : String) :
    ∃ v, alist_lookup (resolve_label label) EXERCISE_LIBRARY = some v ∧
      v.Nodup ∧ v.length = 5 := by
  cases h : alist_lookup (pyLower label) EXERCISE_LIBRARY with
  | none =>
      have hr : resolve_label label = "full body" := by
        simp [resolve_label, h]
      refine ⟨[ "Burpees", "Kettlebell Swings", "Thrusters", "Mountain Climbers"
              , "Farmer’s Carry" ], ?_, by decide, by decide⟩
      rw [hr]
      decide
  | some v =>
      have hr : resolve_label label = pyLower label := by
        simp [resolve_label, h]
      refine ⟨v, by rw [hr]; exact h, ?_⟩
      simpa using library_entry_facts _ (alist_lookup_mem _ _ _ h)

/-- The full sampling contract: for `0 ≤ n` the call succeeds, draws
`min n (entry size)` pairwise-distinct exercises, all from the entry of
the resolved label. -/
theorem sample_spec (label : String) (n : Int) (hn : 0 ≤ n) (seed : Nat → Nat) :
    ∃ l, sample_exercises label n seed = .ok l ∧
      l.length = min n.toNat (catalogEntry (resolve_label label)).length ∧
      l.Nodup ∧ ∀ e ∈ l, e ∈ catalogEntry (resolve_label label) := by
  obtain ⟨v, hv, hnd, hlen5⟩ := resolve_lookup_some label
  have hce : catalogEntry (resolve_label label) = v := by
    simp [catalogEntry, hv]
  have hcond : ¬(min n ((v.length : Int)) < 0 ∨ (v.length : Int) < min n (v.length : Int)) := by
    omega
  refine ⟨randomSample v (min n (v.length : Int)).toNat seed, ?_, ?_, ?_, ?_⟩
  · rw [sample_exercises, hce]
    simp only [pySample, if_neg hcond]
  · rw [hce, randomSample_length v _ seed (by omega)]
    omega
  · exact randomSample_nodup v _ seed hnd
  · rw [hce]
    exact randomSample_subset v _ seed

/-- The keyword scan returns the label of the first table row, in the
fixed declaration order, one of whose keywords occurs in the text. -/
theorem detectGo_eq_first_match (t : String) :
    ∀ ps : List (String × List String),
      detectGo t ps =
        (ps.find? fun p => p.2.any fun kw => pyIn kw t).map Prod.fst
  | [] => rfl
  | (sport, kws) :: rest => by
    by_cases h : (kws.any fun kw => pyIn kw t) = true
    · simp [detectGo, h]
    · simp only [Bool.not_eq_true] at h
      simp [detectGo, h, detectGo_eq_first_match t rest]

/-- A detected sport is a key of the keyword table. -/
theorem detectGo_mem (t : String) :
    ∀ (ps : List (String × List String)) (sport : String),
      detectGo t ps = some sport → sport ∈ ps.map Prod.fst
  | [], _, h => by simp [detectGo] at h
  | (s₀, kws) :: rest, sport, h => by
    by_cases hc : (kws.any fun kw => pyIn kw t) = true
    · rw [detectGo, if_pos hc] at h
      obtain rfl : s₀ = sport := by simpa using h
      simp
    · rw [detectGo, if_neg hc] at h
      simpa using Or.inr (detectGo_mem t rest sport h)

/-- Every key of the keyword table resolves to itself. -/
theorem resolve_fixes_sport_keys :
    ∀ sport ∈ SPORT_KEYWORDS.map Prod.fst, resolve_label sport = sport := by
  decide

/-- A list is a contiguous run of itself followed by anything. -/
theorem infix_here {α : Type} (b t : List α) : b <:+: b ++ t := ⟨[], t, by simp⟩

/-- A contiguous run survives prepending. -/
theorem infix_skip {α : Type} (a : List α) {b x : List α} (h : b <:+: x) :
    b <:+: a ++ x := by
  obtain ⟨s, t, rfl⟩ := h
  exact ⟨a ++ s, t, by simp⟩

/-- Once the hint is sampled, the plan generator just forwards the two
assembled messages to the completion client. -/
theorem generate_eq_completion (seed : Nat → Nat)
    (c : List (String × String) → Except String String)
    (um level goal : String) (minutes : Int) (mood focus : String)
    (s : List String) (hs : sample_exercises focus 3 seed = .ok s) :
    generate_workout_plan seed c um level goal minutes mood focus =
      c (chat_messages um level goal minutes mood focus s) := by
  simp [generate_workout_plan, hs]

/-- C1 (counterexample): for the profile with focus "Legs" and free text
"leg day for basketball", the detector does yield "basketball", but the
sample drawn by the pipeline (here under the concrete oracle `seed0`)
consists of legs-entry exercises, none of which belongs to the
basketball catalog entry — the hint does not come from the detected
sport's list. -/
theorem C1_counterexample :
    detect_sport_from_text "leg day for basketball" = some "basketball" ∧
    sample_exercises "Legs" 3 seed0 =
      .ok ["Bodyweight Squats", "Walking Lunges", "Glute Bridges"] ∧
    "Bodyweight Squats" ∈ catalogEntry "legs" ∧
    "Bodyweight Squats" ∉ catalogEntry "basketball" ∧
    (∀ e ∈ ["Bodyweight Squats", "Walking Lunges", "Glute Bridges"],
      e ∉ catalogEntry "basketball") :=
  ⟨by decide, rfl, by decide, by decide, by decide⟩

/-- C1 (amended): on the end-to-end input {Beginner, General fitness,
20, Neutral, Legs} with free text "leg day for basketball", the detector
yields "basketball", but `generate_workout_plan` never invokes the
detector: its sampled hint is the draw `sample_exercises "Legs" 3` from
the selected focus area's catalog entry "legs" — 3 distinct names from
the legs list, not from the basketball list. -/
theorem C1_amended_focus_drives_sampling (seed : Nat → Nat)
    (c : List (String × String) → Except String String) (s : List String)
    (hs : sample_exercises "Legs" 3 seed = .ok s) :
    detect_sport_from_text "leg day for basketball" = some "basketball" ∧
    generate_workout_plan seed c "leg day for basketball" "Beginner"
        "General fitness" 20 "Neutral" "Legs" =
      c (chat_messages "leg day for basketball" "Beginner" "General fitness" 20
          "Neutral" "Legs" s) ∧
    s.length = 3 ∧ s.Nodup ∧ ∀ e ∈ s, e ∈ catalogEntry "legs" := by
  obtain ⟨l, hl, hlen, hnd, hmem⟩ := sample_spec "Legs" 3 (by decide) seed
  rw [hs] at hl
  obtain rfl : s = l := by injection hl
  refine ⟨by decide, by simp [generate_workout_plan, hs], ?_, hnd, ?_⟩
  · rw [hlen]; decide
  · have hr : resolve_label "Legs" = "legs" := by decide
    rw [hr] at hmem
    exact hmem

theorem C1_amended_witness :
    sample_exercises "Legs" 3 seed0 =
      .ok ["Bodyweight Squats", "Walking Lunges", "Glute Bridges"] ∧
    (detect_sport_from_text "leg day for basketball" = some "basketball" ∧
     generate_workout_plan seed0 (fun _ => .ok "") "leg day for basketball"
         "Beginner" "General fitness" 20 "Neutral" "Legs" =
       (fun _ => Except.ok "") (chat_messages "leg day for basketball" "Beginner"
          "General fitness" 20 "Neutral" "Legs"
          ["Bodyweight Squats", "Walking Lunges", "Glute Bridges"]) ∧
     (["Bodyweight Squats", "Walking Lunges", "Glute Bridges"] : List String).length = 3 ∧
     (["Bodyweight Squats", "Walking Lunges", "Glute Bridges"] : List String).Nodup ∧
     ∀ e ∈ (["Bodyweight Squats", "Walking Lunges", "Glute Bridges"] : List String),
       e ∈ catalogEntry "legs") :=
  ⟨rfl, C1_amended_focus_drives_sampling seed0 (fun _ => .ok "") _ rfl⟩

/-- C2: for every label and every integer `n ≥ 0`, `sample_exercises`
succeeds with a sequence of length `min n (size of the resolved catalog
entry)`, without duplicates, every element of which belongs to that
entry. -/
theorem C2_sample_contract (label : String) (n : Int) (hn : 0 ≤ n)
    (seed : Nat → Nat) :
    ∃ l, sample_exercises label n seed = .ok l ∧
      l.length = min n.toNat (catalogEntry (resolve_label label)).length ∧
      l.Nodup ∧ ∀ e ∈ l, e ∈ catalogEntry (resolve_label label) :=
  sample_spec label n hn seed

theorem C2_sample_contract_witness :
    (0 : Int) ≤ 7 ∧
    ∃ l, sample_exercises "legs" 7 seed0 = .ok l ∧
      l.length = min ((7 : Int)).toNat (catalogEntry (resolve_label "legs")).length ∧
      l.Nodup ∧ ∀ e ∈ l, e ∈ catalogEntry (resolve_label "legs") :=
  ⟨by decide, C2_sample_contract "legs" 7 (by decide) seed0⟩

/-- C3: a label whose lowercased form is not a catalog key resolves to
the default "full body" entry, sampling behaves exactly as for the
default label, and (for `n ≥ 0`) no error is signaled. -/
theorem C3_unknown_label_fallback (label : String)
    (h : alist_lookup (pyLower label) EXERCISE_LIBRARY = none) (n : Int)
    (seed : Nat → Nat) :
    resolve_label label = "full body" ∧
    sample_exercises label n seed = sample_exercises "full body" n seed ∧
    (0 ≤ n → ∃ l, sample_exercises label n seed = .ok l) := by
  have hr : resolve_label label = "full body" := by simp [resolve_label, h]
  refine ⟨hr, ?_, fun hn => ?_⟩
  · simp only [sample_exercises, hr,
      (by decide : resolve_label "full body" = "full body")]
  · obtain ⟨l, hl, _⟩ := sample_spec label n hn seed
    exact ⟨l, hl⟩

theorem C3_unknown_label_fallback_witness :
    alist_lookup (pyLower "cardio") EXERCISE_LIBRARY = none ∧
    (resolve_label "cardio" = "full body" ∧
     sample_exercises "cardio" 2 seed0 = sample_exercises "full body" 2 seed0 ∧
     (0 ≤ (2 : Int) → ∃ l, sample_exercises "cardio" 2 seed0 = .ok l)) :=
  ⟨by decide, C3_unknown_label_fallback "cardio" (by decide) 2 seed0⟩

/-- C4: the detector lowercases the text and returns the label of the
first row of the keyword table — in its fixed declaration order
basketball, soccer, running, tennis, volleyball — having a keyword that
occurs as a substring; with no matching keyword (e.g. "I want a quick
arm day.") it returns none, and on text matching several sports the
first-declared sport wins. -/
theorem C4_detector_first_match (text : String) :
    detect_sport_from_text text =
      (SPORT_KEYWORDS.find? fun p =>
        p.2.any fun kw => pyIn kw (pyLower text)).map Prod.fst ∧
    SPORT_KEYWORDS.map Prod.fst =
      ["basketball", "soccer", "running", "tennis", "volleyball"] ∧
    detect_sport_from_text "I want a quick arm day." = none ∧
    detect_sport_from_text "Basketball practice then soccer footwork." =
      some "basketball" :=
  ⟨detectGo_eq_first_match (pyLower text) SPORT_KEYWORDS, by decide, by decide,
    by decide⟩

/-- C5 (counterexample): at `n = -1` the sampler does not return an
empty sequence — the clamped count stays negative and the underlying
`random.sample` raises `ValueError`. -/
theorem C5_counterexample :
    sample_exercises "legs" (-1) seed0 =
      .error "Sample larger than population or is negative" := rfl

/-- C5 (amended): for `n = 0` the sampler returns an empty sequence with
no error, but for every `n < 0` the call raises (models the `ValueError`
of `random.sample` on a negative sample size). -/
theorem C5_amended_zero_empty_negative_error (label : String) (seed : Nat → Nat) :
    sample_exercises label 0 seed = .ok [] ∧
    ∀ n : Int, n < 0 → sample_exercises label n seed =
      .error "Sample larger than population or is negative" := by
  obtain ⟨v, hv, _, hlen⟩ := resolve_lookup_some label
  have hce : catalogEntry (resolve_label label) = v := by simp [catalogEntry, hv]
  constructor
  · rw [sample_exercises, hce]
    have hm : min (0 : Int) ((v.length : Int)) = 0 := by omega
    rw [hm, pySample, if_neg (by omega)]
    simp [randomSample]
  · intro n hn
    rw [sample_exercises, hce]
    have hm : min n ((v.length : Int)) = n := by omega
    rw [hm, pySample, if_pos (Or.inl hn)]

theorem C5_amended_witness :
    sample_exercises "legs" 0 seed0 = .ok [] ∧
    (-2 : Int) < 0 ∧
    sample_exercises "legs" (-2) seed0 =
      .error "Sample larger than population or is negative" :=
  ⟨(C5_amended_zero_empty_negative_error "legs" seed0).1, by decide,
    (C5_amended_zero_empty_negative_error "legs" seed0).2 (-2) (by decide)⟩

/-- C6: the assembled user message contains the level, goal, minutes,
mood and focus values, the free-text request verbatim, and the
comma-joined sampled-exercise hint, while the system message sent
alongside is the fixed persona constant, whatever the inputs. -/
theorem C6_prompt_contents (um level goal : String) (minutes : Int)
    (mood focus : String) (suggested : List String) :
    strIncludes (full_user_message um level goal minutes mood focus suggested)
      level ∧
    strIncludes (full_user_message um level goal minutes mood focus suggested)
      goal ∧
    strIncludes (full_user_message um level goal minutes mood focus suggested)
      (toString minutes) ∧
    strIncludes (full_user_message um level goal minutes mood focus suggested)
      mood ∧
    strIncludes (full_user_message um level goal minutes mood focus suggested)
      focus ∧
    strIncludes (full_user_message um level goal minutes mood focus suggested)
      um ∧
    strIncludes (full_user_message um level goal minutes mood focus suggested)
      (String.intercalate ", " suggested) ∧
    (chat_messages um level goal minutes mood focus suggested).head? =
      some ("system", SYSTEM_PROMPT) := by
  set_option maxRecDepth 8000 in
  refine ⟨?_, ?_, ?_, ?_, ?_, ?_, ?_, rfl⟩
  all_goals
    simp only [strIncludes, full_user_message, exercise_hint, String.data_append,
      List.append_assoc]
    repeat first
      | exact infix_here _ _
      | apply infix_skip

/-- C7: prompt assembly is deterministic — with componentwise equal
profile fields and equal sampled lists, the two assembled message pairs
are byte-identical. -/
theorem C7_prompt_deterministic
    (um₁ um₂ level₁ level₂ goal₁ goal₂ : String) (minutes₁ minutes₂ : Int)
    (mood₁ mood₂ focus₁ focus₂ : String) (s₁ s₂ : List String)
    (h1 : um₁ = um₂) (h2 : level₁ = level₂) (h3 : goal₁ = goal₂)
    (h4 : minutes₁ = minutes₂) (h5 : mood₁ = mood₂) (h6 : focus₁ = focus₂)
    (h7 : s₁ = s₂) :
    chat_messages um₁ level₁ goal₁ minutes₁ mood₁ focus₁ s₁ =
      chat_messages um₂ level₂ goal₂ minutes₂ mood₂ focus₂ s₂ ∧
    (full_user_message um₁ level₁ goal₁ minutes₁ mood₁ focus₁ s₁).data =
      (full_user_message um₂ level₂ goal₂ minutes₂ mood₂ focus₂ s₂).data := by
  subst h1 h2 h3 h4 h5 h6 h7
  exact ⟨rfl, rfl⟩

theorem C7_prompt_deterministic_witness :
    ("go" : String) = "go" ∧
    chat_messages "go" "Beginner" "Strength" 30 "Neutral" "Legs" ["Plank"] =
      chat_messages "go" "Beginner" "Strength" 30 "Neutral" "Legs" ["Plank"] := by
  refine ⟨rfl, (C7_prompt_deterministic "go" "go" "Beginner" "Beginner" "Strength"
    "Strength" 30 30 "Neutral" "Neutral" "Legs" "Legs" ["Plank"] ["Plank"]
    rfl rfl rfl rfl rfl rfl rfl).1⟩

/-- C8: an empty or whitespace-only free-text request produces the
user-visible warning and the pipeline (sampling and completion call) is
never consulted — the outcome is the same for every oracle and every
completion client; otherwise the pipeline runs and a failing completion
call is surfaced as a single error banner embedding the failure text. -/
theorem C8_submission_handler (um : String) :
    (py_strip um = "" →
      ∀ (seed₁ seed₂ : Nat → Nat)
        (c₁ c₂ : List (String × String) → Except String String)
        (level goal : String) (minutes : Int) (mood focus : String),
        handle_generate seed₁ c₁ um level goal minutes mood focus =
          UIOutcome.warning "Please type something about the workout you want." ∧
        handle_generate seed₁ c₁ um level goal minutes mood focus =
          handle_generate seed₂ c₂ um level goal minutes mood focus) ∧
    (py_strip um ≠ "" →
      ∀ (seed : Nat → Nat) (e : String)
        (c : List (String × String) → Except String String),
        (∀ msgs, c msgs = .error e) →
        ∀ (level goal : String) (minutes : Int) (mood focus : String),
          handle_generate seed c um level goal minutes mood focus =
            UIOutcome.errorBanner
              ("Something went wrong while generating your plan: " ++ e) ∧
          strIncludes
            ("Something went wrong while generating your plan: " ++ e) e) := by
  constructor
  · intro h seed₁ seed₂ c₁ c₂ level goal minutes mood focus
    constructor <;> simp [handle_generate, h]
  · intro h seed e c hc level goal minutes mood focus
    obtain ⟨s, hs, _⟩ := sample_spec focus 3 (by decide) seed
    have hg : generate_workout_plan seed c um level goal minutes mood focus =
        .error e := by
      simp [generate_workout_plan, hs, hc]
    refine ⟨by simp [handle_generate, h, hg], ?_⟩
    show e.data <:+: _
    refine ⟨"Something went wrong while generating your plan: ".data, [], ?_⟩
    simp

theorem C8_submission_handler_witness :
    (py_strip " \t " = "" ∧
     handle_generate seed0 (fun _ => .ok "p") " \t " "Beginner" "Strength" 30
        "Neutral" "Legs" =
       UIOutcome.warning "Please type something about the workout you want." ∧
     handle_generate seed0 (fun _ => .ok "p") " \t " "Beginner" "Strength" 30
        "Neutral" "Legs" =
       handle_generate seed0 (fun _ => .error "x") " \t " "Beginner" "Strength" 30
        "Neutral" "Legs") ∧
    (py_strip "leg day" ≠ "" ∧
     handle_generate seed0 (fun _ => .error "boom") "leg day" "Beginner" "Strength"
        30 "Neutral" "Legs" =
       UIOutcome.errorBanner
         ("Something went wrong while generating your plan: " ++ "boom") ∧
     strIncludes ("Something went wrong while generating your plan: " ++ "boom")
       "boom") :=
  ⟨⟨by decide, (C8_submission_handler " \t ").1 (by decide) seed0 seed0 _ _
      "Beginner" "Strength" 30 "Neutral" "Legs"⟩,
   ⟨by decide, (C8_submission_handler "leg day").2 (by decide) seed0 "boom" _
      (fun _ => rfl) "Beginner" "Strength" 30 "Neutral" "Legs"⟩⟩

/-- C9: every key of the sport keyword table is a key of the exercise
catalog, and consequently every label the detector can return resolves
to itself — no fallback is triggered for a detected sport. -/
theorem C9_detected_labels_in_catalog :
    (SPORT_KEYWORDS.all fun p => (alist_lookup p.1 EXERCISE_LIBRARY).isSome)
      = true ∧
    ∀ text sport, detect_sport_from_text text = some sport →
      resolve_label sport = sport := by
  refine ⟨by decide, fun text sport h => ?_⟩
  exact resolve_fixes_sport_keys sport
    (detectGo_mem (pyLower text) SPORT_KEYWORDS sport h)

theorem C9_detected_labels_in_catalog_witness :
    detect_sport_from_text "hoops tonight" = some "basketball" ∧
    resolve_label "basketball" = "basketball" :=
  ⟨by decide, C9_detected_labels_in_catalog.2 "hoops tonight" "basketball"
    (by decide)⟩

/-- C10: the free-text request never influences which catalog entry is
sampled: two `generate_workout_plan` invocations differing only in
`user_message` consume the same draw `s`, taken from the entry of the
resolved focus label, and `detect_sport_from_text` plays no part in the
pipeline. -/
theorem C10_hint_independent_of_free_text (seed : Nat → Nat)
    (c : List (String × String) → Except String String)
    (um₁ um₂ level goal : String) (minutes : Int) (mood focus : String)
    (s : List String) (hs : sample_exercises focus 3 seed = .ok s) :
    generate_workout_plan seed c um₁ level goal minutes mood focus =
      c (chat_messages um₁ level goal minutes mood focus s) ∧
    generate_workout_plan seed c um₂ level goal minutes mood focus =
      c (chat_messages um₂ level goal minutes mood focus s) ∧
    ∀ e ∈ s, e ∈ catalogEntry (resolve_label focus) := by
  refine ⟨by simp [generate_workout_plan, hs], by simp [generate_workout_plan, hs],
    ?_⟩
  obtain ⟨l, hl, _, _, hmem⟩ := sample_spec focus 3 (by decide) seed
  rw [hs] at hl
  obtain rfl : s = l := by injection hl
  exact hmem

theorem C10_hint_independent_witness :
    sample_exercises "Full body" 3 seed0 =
      .ok ["Burpees", "Kettlebell Swings", "Thrusters"] ∧
    (generate_workout_plan seed0 (fun _ => .ok "") "um one" "Beginner" "Strength"
        30 "Neutral" "Full body" =
      (fun _ => Except.ok "") (chat_messages "um one" "Beginner" "Strength" 30
        "Neutral" "Full body" ["Burpees", "Kettlebell Swings", "Thrusters"]) ∧
     generate_workout_plan seed0 (fun _ => .ok "") "um two" "Beginner" "Strength"
        30 "Neutral" "Full body" =
      (fun _ => Except.ok "") (chat_messages "um two" "Beginner" "Strength" 30
        "Neutral" "Full body" ["Burpees", "Kettlebell Swings", "Thrusters"]) ∧
     ∀ e ∈ (["Burpees", "Kettlebell Swings", "Thrusters"] : List String),
       e ∈ catalogEntry (resolve_label "Full body")) :=
  ⟨rfl, C10_hint_independent_of_free_text seed0 (fun _ => .ok "") "um one" "um two"
    "Beginner" "Strength" 30 "Neutral" "Full body" _ rfl⟩

end GamePlan
